import Mathlib

/-!
Verification development for the `gd.sql_connection` transactional execution
layer: a shallow embedding of `SQLConnectionHandler`'s argument validation,
queue bookkeeping (`create_queue`, `add_to_queue`) and the queue execution
protocol (`execute_queue`), together with theorems about the behaviour of
those operations.  The database driver (psycopg2) is abstracted as an oracle
assigning to each executed statement an execute outcome and a fetch outcome.
-/

namespace GDSpec

/-- Python runtime values as they appear in bound-argument positions and in
fetched result rows: `None`, booleans, integers, strings, lists, tuples and
dicts (a dict is a key/value association list). -/
inductive PyVal where
  | vNone
  | vBool (b : Bool)
  | vInt (n : Int)
  | vStr (s : String)
  | vList (xs : List PyVal)
  | vTuple (xs : List PyVal)
  | vDict (kvs : List (PyVal × PyVal))
deriving Repr

/-- Exceptions that the embedded code can raise.  `typeError`, `valueError`,
`indexError` and `keyError` model the Python builtins; `gdConnectionError`
and `gdExecutionError` model `GDConnectionError` and `GDExecutionError` from
`gd/exceptions.py` (both subclasses of `GDError`). -/
inductive PyExc where
  | typeError
  | valueError
  | indexError
  | keyError (msg : String)
  | gdConnectionError (msg : String)
  | gdExecutionError (msg : String)
deriving DecidableEq, Repr

/-- Python truthiness (`bool(x)`) for the embedded value type. -/
def pyTruthy : PyVal → Bool
  | .vNone => false
  | .vBool b => b
  | .vInt n => n != 0
  | .vStr s => !s.isEmpty
  | .vList xs => !xs.isEmpty
  | .vTuple xs => !xs.isEmpty
  | .vDict kvs => !kvs.isEmpty

/-- Whether `type(x)` is exactly one of `tuple`, `list`, `dict`. -/
def isListTupleDict : PyVal → Bool
  | .vList _ => true
  | .vTuple _ => true
  | .vDict _ => true
  | _ => false

/-- Embeds `SQLConnectionHandler._check_sql_args` (sql_connection.py lines
192-212): raises `TypeError` iff `sql_args` is truthy and its type is not in
`[tuple, list, dict]`. -/
def check_sql_args (sql_args : PyVal) : Except PyExc Unit :=
  if pyTruthy sql_args && !isListTupleDict sql_args then
    .error .typeError
  else
    .ok ()

/-- Embeds Python's `list(x)` / iteration over `x`: lists and tuples yield
their elements, a string yields its characters as one-character strings, a
dict yields its keys; every other value raises `TypeError` (not iterable). -/
def pyIter : PyVal → Except PyExc (List PyVal)
  | .vList xs => .ok xs
  | .vTuple xs => .ok xs
  | .vStr s => .ok (s.data.map (fun c => .vStr (String.singleton c)))
  | .vDict kvs => .ok (kvs.map (·.1))
  | _ => .error .typeError

/-- Decimal value of a digit list, most significant first. -/
def digitsVal (ds : List Char) : Nat :=
  ds.foldl (fun a c => a * 10 + (c.toNat - 48)) 0

/-- Parses a nonempty all-digit character list as a natural number. -/
def parseNatDigits (ds : List Char) : Option Nat :=
  if ds ≠ [] ∧ ds.all (·.isDigit) then Option.some (digitsVal ds) else Option.none

/-- Embeds Python's `int(s)` on the strings this code feeds it: an optional
sign followed by decimal digits (Python's `int` additionally tolerates
surrounding whitespace, which is never exercised here); any other string
raises `ValueError`. -/
def pyIntOfString (s : String) : Option Int :=
  if s.data.head? = Option.some '-' then
    (parseNatDigits s.data.tail).map (fun n => -(n : Int))
  else if s.data.head? = Option.some '+' then
    (parseNatDigits s.data.tail).map (fun n => (n : Int))
  else
    (parseNatDigits s.data).map (fun n => (n : Int))

/-- Embeds Python list indexing `xs[i]` with an `int` index: a negative index
counts from the end; an index out of range gives `none` (IndexError at the
call site). -/
def pyIndex (xs : List PyVal) (i : Int) : Option PyVal :=
  let j : Int := if i < 0 then i + xs.length else i
  if 0 ≤ j ∧ j < (xs.length : Int) then xs[j.toNat]? else Option.none

/-- Embeds the slice `s[1:-1]` (drop the first and last characters). -/
def pyInnerSlice (s : String) : String :=
  String.mk ((s.data.drop 1).dropLast)

/-- One pending queue entry, the pair `(sql, sql_args)` appended by
`add_to_queue`; `sql_args` is `vNone` when no arguments were given. -/
abbrev QueuedStatement := String × PyVal

/-- The ordered list of statements registered under one queue name. -/
abbrev Queue := List QueuedStatement

/-- Embeds `self.queues`, the queue-name to statement-list mapping, as an
insertion-ordered association list with unique keys. -/
abbrev Queues := List (String × Queue)

/-- Looks a queue name up in the mapping (`self.queues[name]` /
`name in self.queues`). -/
def qlookup (qs : Queues) (q : String) : Option Queue :=
  match qs with
  | [] => Option.none
  | p :: rest => if p.1 = q then Option.some p.2 else qlookup rest q

/-- Embeds `del self.queues[name]`: removes the entry for `q`, keeping all
other entries in order. -/
def qerase (qs : Queues) (q : String) : Queues :=
  match qs with
  | [] => []
  | p :: rest => if p.1 = q then qerase rest q else p :: qerase rest q

/-- Applies `f` in place to the statement list registered under `q` (the
key is unique in every mapping this code builds). -/
def qmodify (qs : Queues) (q : String) (f : Queue → Queue) : Queues :=
  match qs with
  | [] => []
  | p :: rest =>
    if p.1 = q then (p.1, f p.2) :: qmodify rest q f else p :: qmodify rest q f

/-- Embeds `self.queues[queue].append(entry)`. -/
def qappend (qs : Queues) (q : String) (entry : QueuedStatement) : Queues :=
  qmodify qs q (fun l => l ++ [entry])

/-- Embeds `SQLConnectionHandler.create_queue` (lines 376-392): registering a
name that already exists raises `KeyError` and changes nothing; otherwise an
empty list is registered under the name.  The result pairs the mapping after
the call with the exception raised, if any. -/
def create_queue (qs : Queues) (q : String) : Queues × Option PyExc :=
  match qlookup qs q with
  | Option.some _ => (qs, Option.some (.keyError ("Queue already contains " ++ q)))
  | Option.none => (qs ++ [(q, [])], Option.none)

/-- Embeds `SQLConnectionHandler._check_queue_exists` (lines 372-374). -/
def check_queue_exists (qs : Queues) (q : String) : Except PyExc Unit :=
  match qlookup qs q with
  | Option.none => .error (.keyError ("Queue " ++ q ++ " does not exists"))
  | Option.some _ => .ok ()

/-- Embeds the `for args in sql_args` loop of `add_to_queue` (lines 433-435):
each argument set is validated and then appended, one at a time, so a
validation failure part way through leaves the earlier appends in place. -/
def addLoop (qs : Queues) (q sql : String) : List PyVal → Queues × Option PyExc
  | [] => (qs, Option.none)
  | a :: rest =>
    match check_sql_args a with
    | .error e => (qs, Option.some e)
    | .ok _ => addLoop (qappend qs q (sql, a)) q sql rest

/-- Embeds `SQLConnectionHandler.add_to_queue` (lines 404-435): checks the
queue exists, wraps `sql_args` as a one-element batch unless `many` is set
(iterating `sql_args` itself when it is), then validates and appends each
argument set in order. -/
def add_to_queue (qs : Queues) (q sql : String) (sql_args : PyVal)
    (many : Bool) : Queues × Option PyExc :=
  match check_queue_exists qs q with
  | .error e => (qs, Option.some e)
  | .ok _ =>
    match (if many then pyIter sql_args else .ok [sql_args]) with
    | .error e => (qs, Option.some e)
    | .ok sets => addLoop qs q sql sets

/-- Outcome of one `cur.execute(sql, sql_args)` call at the driver layer. -/
inductive ExecOutcome where
  | ok
  | err (msg : String)
deriving DecidableEq, Repr

/-- Outcome of one `cur.fetchall()` call at the driver layer: rows fetched,
the benign `ProgrammingError` raised when the statement produced no result
set, or some other `PostgresError`. -/
inductive FetchOutcome where
  | rows (rs : List (List PyVal))
  | progErr
  | pgErr (msg : String)
deriving Repr

/-- Driver behaviour for one statement of a queue run. -/
structure StmtBehavior where
  exec : ExecOutcome
  fetch : FetchOutcome
deriving Repr

/-- The abstracted database driver: behaviour of the i-th executed statement
in a queue run. -/
abbrev Driver := Nat → StmtBehavior

/-- Observable events on the underlying connection, in order: statement
execution attempts (with the argument value passed to the driver, after any
placeholder substitution), rollbacks, and commits. -/
inductive Event where
  | exec (sql : String) (args : PyVal)
  | rollback
  | commit
deriving Repr

/-- The message of the `GDExecutionError` raised when a placeholder index is
out of range (lines 478-480). -/
def placeholderErrMsg : String :=
  "The index provided as a placeholder does not correspond to any previous result"

/-- The message of the `GDExecutionError` raised by `_rollback_raise_error`
(lines 441-443); the Python `str()` rendering of the argument list is
abstracted away. -/
def queueErrMsg (q sql e : String) : String :=
  "Error running SQL query in queue " ++ q ++ ": " ++ sql ++ " Error: " ++ e

/-- Result of an `execute_queue` call: the queue mapping after the call, the
connection events that occurred, and the returned value or raised
exception. -/
structure QResult where
  queues : Queues
  events : List Event
  ret : Except PyExc (List PyVal)
deriving Repr

/-- Embeds one argument's placeholder handling inside the scan loop (lines
470-481): a string whose first character is a brace-open and whose last
character is a brace-close is parsed as an integer index into the results
buffer and replaced by the value found there; an out-of-range index raises
`GDExecutionError`; an empty string raises `IndexError` from `arg[0]` and an
unparsable interior raises `ValueError` from `int(...)`.  The boolean flag
reports whether a substitution happened (`clear_res = True`). -/
def substOne (buf : List PyVal) (arg : PyVal) : Except PyExc (PyVal × Bool) :=
  match arg with
  | .vStr s =>
    match s.data.head? with
    | Option.none => .error .indexError
    | Option.some c0 =>
      if c0 = '{' ∧ s.data.getLast? = Option.some '}' then
        match pyIntOfString (pyInnerSlice s) with
        | Option.none => .error .valueError
        | Option.some i =>
          match pyIndex buf i with
          | Option.none => .error (.gdExecutionError placeholderErrMsg)
          | Option.some v => .ok (v, true)
      else .ok (arg, false)
  | _ => .ok (arg, false)

/-- Embeds the whole placeholder scan over `sql_args` (the
`for pos, arg in enumerate(sql_args)` loop): arguments are processed left to
right, the first failure aborts the statement, and the flag is true iff some
argument was substituted. -/
def substArgs (buf : List PyVal) : List PyVal → Except PyExc (List PyVal × Bool)
  | [] => .ok ([], false)
  | a :: rest =>
    match substOne buf a with
    | .error e => .error e
    | .ok (a', c1) =>
      match substArgs buf rest with
      | .error e => .error e
      | .ok (rest', c2) => .ok (a' :: rest', c1 || c2)

/-- Embeds lines 466-481 for one statement: `None` arguments are passed
through untouched; otherwise `sql_args` is converted to a Python list
(`list(sql_args)`) and scanned for placeholders.  The returned value is the
argument value handed to `cur.execute` together with the `clear_res` flag. -/
def stepSubst (buf : List PyVal) (args : PyVal) : Except PyExc (PyVal × Bool) :=
  match args with
  | .vNone => .ok (.vNone, false)
  | a =>
    match pyIter a with
    | .error e => .error e
    | .ok lst =>
      match substArgs buf lst with
      | .error e => .error e
      | .ok (lst', cr) => .ok (.vList lst', cr)

/-- Embeds the statement loop of `execute_queue` (lines 462-510).  The
`clear_res` flag is always false when an iteration starts, because the reset
at lines 483-485 unconditionally clears it in the iteration that set it, so
the flag is kept local to each iteration here.  A placeholder failure (and
any uncaught `TypeError`, `IndexError` or `ValueError` from the scan)
propagates without a rollback and without deleting the queue; an execute
failure or a non-benign fetch failure goes through `_rollback_raise_error`
(rollback, delete queue, raise); the benign `ProgrammingError` on fetch is
swallowed; after the last statement the transaction is committed, the queue
entry is deleted and the buffer is returned. -/
def execQueueLoop (drv : Driver) (qs : Queues) (q : String) :
    Nat → List QueuedStatement → List PyVal → List Event → QResult
  | _, [], buf, evs =>
    { queues := qerase qs q, events := evs ++ [.commit], ret := .ok buf }
  | idx, (sql, args) :: rest, buf, evs =>
    match stepSubst buf args with
    | .error e => { queues := qs, events := evs, ret := .error e }
    | .ok (argsEv, cr) =>
      let buf1 := if cr then [] else buf
      let evs1 := evs ++ [.exec sql argsEv]
      match (drv idx).exec with
      | .err m =>
        { queues := qerase qs q, events := evs1 ++ [.rollback],
          ret := .error (.gdExecutionError (queueErrMsg q sql m)) }
      | .ok =>
        match (drv idx).fetch with
        | .rows rs => execQueueLoop drv qs q (idx + 1) rest (buf1 ++ rs.flatten) evs1
        | .progErr => execQueueLoop drv qs q (idx + 1) rest buf1 evs1
        | .pgErr m =>
          { queues := qerase qs q, events := evs1 ++ [.rollback],
            ret := .error (.gdExecutionError (queueErrMsg q sql m)) }

/-- Embeds `SQLConnectionHandler.execute_queue` (lines 445-510): checks the
queue exists, then runs the statement loop starting from an empty results
buffer. -/
def execute_queue (drv : Driver) (qs : Queues) (q : String) : QResult :=
  match qlookup qs q with
  | Option.none =>
    { queues := qs, events := [],
      ret := .error (.keyError ("Queue " ++ q ++ " does not exists")) }
  | Option.some stmts => execQueueLoop drv qs q 0 stmts [] []

/-- Embeds the validation prefix and transaction boundary of
`SQLConnectionHandler._sql_executor` (lines 214-258), shared by `execute`,
`executemany`, `execute_fetchone` and `execute_fetchall`: arguments are
validated before any cursor is acquired (each batch element individually
when `many` is set); on a driver failure the connection is rolled back and
`GDExecutionError` raised, otherwise the connection is committed.  Fetching
is not modelled here. -/
def sql_executor (b : StmtBehavior) (sql : String) (sql_args : PyVal)
    (many : Bool) : List Event × Except PyExc Unit :=
  let checked : Except PyExc Unit :=
    if many then
      match pyIter sql_args with
      | .error e => .error e
      | .ok sets => checkAllArgs sets
    else check_sql_args sql_args
  match checked with
  | .error e => ([], .error e)
  | .ok _ =>
    match b.exec with
    | .err m =>
      ([.exec sql sql_args, .rollback],
       .error (.gdExecutionError ("Error running SQL query: " ++ sql ++ " Error: " ++ m)))
    | .ok => ([.exec sql sql_args, .commit], .ok ())
where
  /-- Validates each element of a `many` batch in order. -/
  checkAllArgs : List PyVal → Except PyExc Unit
    | [] => .ok ()
    | a :: rest =>
      match check_sql_args a with
      | .error e => .error e
      | .ok _ => checkAllArgs rest

/-- Embeds `INIT_ADMIN_OPTS` (line 93 of the source), the set of admissible
`admin` modes. -/
def INIT_ADMIN_OPTS : List String :=
  ["no_admin", "admin_with_database", "admin_without_database"]

/-- Embeds the mode validation of `SQLConnectionHandler.__init__` together
with the connection attempt of `_open_connection` (lines 115-159): an
unrecognized `admin` value raises `GDConnectionError` before any connection
attempt; otherwise a connection is attempted (abstracted by `connectOk`) and
a failure raises `GDConnectionError` as well.  The boolean records whether a
connection attempt was made. -/
def handlerInit (admin : String) (connectOk : Bool) : Bool × Except PyExc Unit :=
  if admin ∈ INIT_ADMIN_OPTS then
    if connectOk then (true, .ok ())
    else (true, .error (.gdConnectionError "Cannot connect to database"))
  else
    (false, .error (.gdConnectionError "admin takes only on of INIT_ADMIN_OPTS"))

/-- The bound-argument shapes the specification declares acceptable: a
sequence (list or tuple), a mapping (dict), or none. -/
def seqMapOrNone (v : PyVal) : Bool :=
  match v with
  | .vNone => true
  | _ => isListTupleDict v

/-- Whether an exception is (an instance of) the `GDConnectionError` class. -/
def connectionErrorClass : PyExc → Bool
  | .gdConnectionError _ => true
  | _ => false

/-- Whether an argument value has the placeholder token shape the scan loop
tests for: a string whose first character is a brace-open and whose last
character is a brace-close. -/
def isPlaceholderShaped : PyVal → Bool
  | .vStr s =>
    decide (s.data.head? = Option.some '{' ∧ s.data.getLast? = Option.some '}')
  | _ => false

/-- Whether a statement's bound arguments contain at least one
placeholder-shaped token, i.e. whether executing the statement consumes the
Result Buffer (spec section 4.4, step b). -/
def consumesArgs : PyVal → Bool
  | .vNone => false
  | a =>
    match pyIter a with
    | .ok lst => lst.any isPlaceholderShaped
    | .error _ => false

/-- Result Buffer recurrence transcribed from the specification's words
(section 4.4, steps b, d, e): per statement, the buffer is cleared when the
statement's arguments consumed it, then the fetched rows, flattened in
row-major order, are appended; a statement with no result set contributes
nothing.  Used as the reference value for what a successful `execute_queue`
run returns. -/
def resultBufferSpec (drv : Driver) : Nat → List QueuedStatement → List PyVal → List PyVal
  | _, [], buf => buf
  | idx, (_, args) :: rest, buf =>
    let buf1 := if consumesArgs args then [] else buf
    let fetched := match (drv idx).fetch with
      | .rows rs => rs.flatten
      | _ => []
    resultBufferSpec drv (idx + 1) rest (buf1 ++ fetched)

/-- Number of commit events in a trace. -/
def countCommits (evs : List Event) : Nat :=
  (evs.filter fun e => match e with | .commit => true | _ => false).length

/-- Number of rollback events in a trace. -/
def countRollbacks (evs : List Event) : Nat :=
  (evs.filter fun e => match e with | .rollback => true | _ => false).length

/-- The statements executed in a trace, in order. -/
def execSqls (evs : List Event) : List String :=
  evs.filterMap fun e => match e with | .exec s _ => Option.some s | _ => Option.none

@[simp]
lemma countCommits_append (a b : List Event) :
    countCommits (a ++ b) = countCommits a + countCommits b := by
  simp [countCommits, List.filter_append]

@[simp]
lemma countRollbacks_append (a b : List Event) :
    countRollbacks (a ++ b) = countRollbacks a + countRollbacks b := by
  simp [countRollbacks, List.filter_append]

@[simp]
lemma execSqls_append (a b : List Event) :
    execSqls (a ++ b) = execSqls a ++ execSqls b := by
  simp [execSqls]

@[simp] lemma countCommits_nil : countCommits [] = 0 := rfl

@[simp] lemma countRollbacks_nil : countRollbacks [] = 0 := rfl

@[simp] lemma execSqls_nil : execSqls [] = [] := rfl

@[simp] lemma countCommits_exec (s : String) (a : PyVal) :
    countCommits [.exec s a] = 0 := rfl

@[simp] lemma countCommits_commit : countCommits [.commit] = 1 := rfl

@[simp] lemma countCommits_rollback : countCommits [.rollback] = 0 := rfl

@[simp] lemma countRollbacks_exec (s : String) (a : PyVal) :
    countRollbacks [.exec s a] = 0 := rfl

@[simp] lemma countRollbacks_commit : countRollbacks [.commit] = 0 := rfl

@[simp] lemma countRollbacks_rollback : countRollbacks [.rollback] = 1 := rfl

@[simp] lemma execSqls_exec (s : String) (a : PyVal) :
    execSqls [.exec s a] = [s] := rfl

@[simp] lemma execSqls_commit : execSqls [.commit] = [] := rfl

/-- Erasing a key removes it from the mapping. -/
lemma qlookup_qerase (qs : Queues) (q : String) :
    qlookup (qerase qs q) q = Option.none := by
  induction qs with
  | nil => rfl
  | cons p rest ih =>
    by_cases h : p.1 = q
    · simp [qerase, h, ih]
    · simp [qerase, qlookup, h, ih]

/-- Looking up a modified key applies the modification to the stored list. -/
lemma qlookup_qmodify (qs : Queues) (q : String) (f : Queue → Queue) :
    qlookup (qmodify qs q f) q = (qlookup qs q).map f := by
  induction qs with
  | nil => rfl
  | cons p rest ih =>
    by_cases h : p.1 = q
    · simp [qmodify, qlookup, h]
    · simp [qmodify, qlookup, h, ih]

/-- Modifying with the identity changes nothing. -/
lemma qmodify_id (qs : Queues) (q : String) :
    qmodify qs q (fun l => l) = qs := by
  induction qs with
  | nil => rfl
  | cons p rest ih =>
    by_cases h : p.1 = q
    · subst h; simp [qmodify, ih]
    · simp [qmodify, h, ih]

/-- Two successive modifications of the same key compose. -/
lemma qmodify_qmodify (qs : Queues) (q : String) (f g : Queue → Queue) :
    qmodify (qmodify qs q f) q g = qmodify qs q (fun l => g (f l)) := by
  induction qs with
  | nil => rfl
  | cons p rest ih =>
    by_cases h : p.1 = q
    · simp [qmodify, h, ih]
    · simp [qmodify, h, ih]

/-- When every argument set validates, the append loop appends one entry per
set, in the order given, and raises nothing. -/
lemma addLoop_ok (q sql : String) :
    ∀ (sets : List PyVal) (qs : Queues),
      (∀ a ∈ sets, check_sql_args a = .ok ()) →
      addLoop qs q sql sets
        = (qmodify qs q (fun l => l ++ sets.map fun a => (sql, a)), Option.none) := by
  intro sets
  induction sets with
  | nil =>
    intro qs _
    simp [addLoop, qmodify_id]
  | cons a rest ih =>
    intro qs hall
    have ha : check_sql_args a = .ok () := hall a (by simp)
    have hrest : ∀ b ∈ rest, check_sql_args b = .ok () := by
      intro b hb; exact hall b (by simp [hb])
    simp only [addLoop, ha]
    rw [ih (qappend qs q (sql, a)) hrest]
    simp only [qappend, qmodify_qmodify, List.map_cons]
    congr 1
    apply congrArg
    funext l
    simp

/-- When the argument sets validate up to a failing one, the append loop
appends exactly the earlier entries and raises the failure. -/
lemma addLoop_fail (q sql : String) (bad : PyVal) (e : PyExc)
    (hbad : check_sql_args bad = .error e) :
    ∀ (good : List PyVal) (rest : List PyVal) (qs : Queues),
      (∀ a ∈ good, check_sql_args a = .ok ()) →
      addLoop qs q sql (good ++ bad :: rest)
        = (qmodify qs q (fun l => l ++ good.map fun a => (sql, a)), Option.some e) := by
  intro good
  induction good with
  | nil =>
    intro rest qs _
    simp [addLoop, hbad, qmodify_id]
  | cons a tl ih =>
    intro rest qs hall
    have ha : check_sql_args a = .ok () := hall a (by simp)
    have htl : ∀ b ∈ tl, check_sql_args b = .ok () := by
      intro b hb; exact hall b (by simp [hb])
    simp only [List.cons_append, addLoop, ha, List.append_eq]
    rw [ih rest (qappend qs q (sql, a)) htl]
    simp only [qappend, qmodify_qmodify, List.map_cons]
    congr 1
    apply congrArg
    funext l
    simp

/-- The consumption flag carried by a substitution result (`false` on an
error, which never reaches the flag in the embedded code). -/
def flagOf (x : Except PyExc (PyVal × Bool)) : Bool :=
  match x with
  | .ok p => p.2
  | .error _ => false

/-- A successful single-argument substitution reports a consumption exactly
when the argument has the placeholder token shape. -/
lemma substOne_flag (buf : List PyVal) (a b : PyVal) (c : Bool)
    (h : substOne buf a = .ok (b, c)) : c = isPlaceholderShaped a := by
  have hc0 : flagOf (substOne buf a) = c := by rw [h]; rfl
  rw [← hc0]
  cases a with
  | vStr s =>
    rcases hh : s.data.head? with _ | c0
    · simp [substOne, hh] at h
    · by_cases hcond : c0 = '{' ∧ s.data.getLast? = Option.some '}'
      · rcases hp : pyIntOfString (pyInnerSlice s) with _ | i
        · simp [substOne, hh, if_pos hcond, hp] at h
        · rcases hi : pyIndex buf i with _ | v
          · simp [substOne, hh, if_pos hcond, hp, hi] at h
          · have h1 : s.data.head? = Option.some '{' := by rw [hh, hcond.1]
            simp [substOne, flagOf, hh, if_pos hcond, hp, hi,
                  isPlaceholderShaped, h1, hcond.1, hcond.2]
      · have hshape : isPlaceholderShaped (.vStr s) = false := by
          simp only [isPlaceholderShaped]
          rw [decide_eq_false_iff_not]
          rintro ⟨h1, h2⟩
          rw [hh] at h1
          exact hcond ⟨Option.some.inj h1, h2⟩
        simp [substOne, flagOf, hh, if_neg hcond, hshape]
  | vNone => simp [substOne, flagOf, isPlaceholderShaped]
  | vBool b' => simp [substOne, flagOf, isPlaceholderShaped]
  | vInt n => simp [substOne, flagOf, isPlaceholderShaped]
  | vList xs => simp [substOne, flagOf, isPlaceholderShaped]
  | vTuple xs => simp [substOne, flagOf, isPlaceholderShaped]
  | vDict kvs => simp [substOne, flagOf, isPlaceholderShaped]

/-- The consumption flag carried by a scan result (`false` on an error,
which never reaches the flag in the embedded code). -/
def flagOfL (x : Except PyExc (List PyVal × Bool)) : Bool :=
  match x with
  | .ok p => p.2
  | .error _ => false

/-- A successful scan reports a consumption exactly when some argument has
the placeholder token shape. -/
lemma substArgs_flag (buf : List PyVal) :
    ∀ (lst lst' : List PyVal) (cr : Bool),
      substArgs buf lst = .ok (lst', cr) →
      cr = lst.any isPlaceholderShaped := by
  intro lst
  induction lst with
  | nil =>
    intro lst' cr h
    have hb := congrArg flagOfL h
    simp [substArgs, flagOfL] at hb
    simp [← hb]
  | cons a rest ih =>
    intro lst' cr h
    rcases h1 : substOne buf a with e | ⟨a', c1⟩
    · rw [substArgs, h1] at h; exact absurd h (by simp)
    · rcases h2 : substArgs buf rest with e | ⟨rest', c2⟩
      · rw [substArgs, h1, h2] at h; exact absurd h (by simp)
      · rw [substArgs, h1, h2] at h
        have hb := congrArg flagOfL h
        simp only [flagOfL] at hb
        rw [← hb, substOne_flag buf a a' c1 h1, ih rest' c2 h2]
        simp

/-- A successful per-statement substitution reports a consumption exactly
when the statement's arguments consume the buffer. -/
lemma stepSubst_flag (buf : List PyVal) (args : PyVal) (p : PyVal) (cr : Bool)
    (h : stepSubst buf args = .ok (p, cr)) : cr = consumesArgs args := by
  have hb := congrArg flagOf h
  cases args with
  | vNone =>
    simp only [stepSubst, flagOf] at hb
    rw [← hb]
    rfl
  | vBool b =>
    simp [stepSubst, pyIter] at h
  | vInt n =>
    simp [stepSubst, pyIter] at h
  | vStr s =>
    rcases h2 : substArgs buf (s.data.map (fun ch => .vStr (String.singleton ch))) with e | ⟨lst', c⟩
    · simp only [stepSubst, pyIter] at h
      rw [h2] at h
      exact absurd h (by simp)
    · simp only [stepSubst, pyIter, flagOf] at hb
      rw [h2] at hb
      simp only [flagOf] at hb
      rw [← hb]
      simp only [consumesArgs, pyIter]
      exact substArgs_flag buf _ lst' c h2
  | vList xs =>
    rcases h2 : substArgs buf xs with e | ⟨lst', c⟩
    · simp only [stepSubst, pyIter] at h
      rw [h2] at h
      exact absurd h (by simp)
    · simp only [stepSubst, pyIter, flagOf] at hb
      rw [h2] at hb
      simp only [flagOf] at hb
      rw [← hb]
      simp only [consumesArgs, pyIter]
      exact substArgs_flag buf _ lst' c h2
  | vTuple xs =>
    rcases h2 : substArgs buf xs with e | ⟨lst', c⟩
    · simp only [stepSubst, pyIter] at h
      rw [h2] at h
      exact absurd h (by simp)
    · simp only [stepSubst, pyIter, flagOf] at hb
      rw [h2] at hb
      simp only [flagOf] at hb
      rw [← hb]
      simp only [consumesArgs, pyIter]
      exact substArgs_flag buf _ lst' c h2
  | vDict kvs =>
    rcases h2 : substArgs buf (kvs.map (·.1)) with e | ⟨lst', c⟩
    · simp only [stepSubst, pyIter] at h
      rw [h2] at h
      exact absurd h (by simp)
    · simp only [stepSubst, pyIter, flagOf] at hb
      rw [h2] at hb
      simp only [flagOf] at hb
      rw [← hb]
      simp only [consumesArgs, pyIter]
      exact substArgs_flag buf _ lst' c h2

/-- Characterization of a statement loop run that returns normally: the
queue entry is deleted, exactly one commit and no rollback is added to the
trace, the commit is the last event, every queued statement was executed in
FIFO order, and the returned value is the Result Buffer computed by the
specification's recurrence. -/
lemma execQueueLoop_ok_char (drv : Driver) (qs : Queues) (q : String) :
    ∀ (stmts : List QueuedStatement) (idx : Nat) (buf : List PyVal)
      (evs : List Event) (out : List PyVal),
      (execQueueLoop drv qs q idx stmts buf evs).ret = .ok out →
      (execQueueLoop drv qs q idx stmts buf evs).queues = qerase qs q ∧
      countCommits (execQueueLoop drv qs q idx stmts buf evs).events
        = countCommits evs + 1 ∧
      countRollbacks (execQueueLoop drv qs q idx stmts buf evs).events
        = countRollbacks evs ∧
      (execQueueLoop drv qs q idx stmts buf evs).events.getLast?
        = Option.some .commit ∧
      execSqls (execQueueLoop drv qs q idx stmts buf evs).events
        = execSqls evs ++ stmts.map Prod.fst ∧
      out = resultBufferSpec drv idx stmts buf := by
  intro stmts
  induction stmts with
  | nil =>
    intro idx buf evs out h
    have hout : buf = out := by
      simp only [execQueueLoop] at h
      simpa using h
    refine ⟨rfl, ?_, ?_, ?_, ?_, ?_⟩
    · show countCommits (evs ++ [Event.commit]) = countCommits evs + 1
      simp
    · show countRollbacks (evs ++ [Event.commit]) = countRollbacks evs
      simp
    · show (evs ++ [Event.commit]).getLast? = Option.some Event.commit
      exact List.getLast?_concat _
    · show execSqls (evs ++ [Event.commit])
        = execSqls evs ++ List.map Prod.fst ([] : List QueuedStatement)
      simp
    · rw [← hout]; rfl
  | cons hd tl ih =>
    obtain ⟨sql, args⟩ := hd
    intro idx buf evs out h
    rcases hs : stepSubst buf args with e | ⟨argsEv, cr⟩
    · rw [execQueueLoop, hs] at h ⊢
      exact absurd h (by simp)
    · rcases he : (drv idx).exec with _ | m
      · rcases hf : (drv idx).fetch with rs | _ | m
        · rw [execQueueLoop, hs, he, hf] at h ⊢
          obtain ⟨g1, g2, g3, g4, g5, g6⟩ :=
            ih (idx + 1) ((if cr then [] else buf) ++ rs.flatten)
              (evs ++ [.exec sql argsEv]) out h
          refine ⟨g1, ?_, ?_, g4, ?_, ?_⟩
          · rw [g2]; simp
          · rw [g3]; simp
          · rw [g5]; simp
          · rw [g6, resultBufferSpec, ← stepSubst_flag buf args argsEv cr hs, hf]
        · rw [execQueueLoop, hs, he, hf] at h ⊢
          obtain ⟨g1, g2, g3, g4, g5, g6⟩ :=
            ih (idx + 1) (if cr then [] else buf)
              (evs ++ [.exec sql argsEv]) out h
          refine ⟨g1, ?_, ?_, g4, ?_, ?_⟩
          · rw [g2]; simp
          · rw [g3]; simp
          · rw [g5]; simp
          · rw [g6, resultBufferSpec, ← stepSubst_flag buf args argsEv cr hs, hf]
            simp
        · rw [execQueueLoop, hs, he, hf] at h ⊢
          exact absurd h (by simp)
      · rw [execQueueLoop, hs, he] at h ⊢
        exact absurd h (by simp)

/-- Claim C4 counterexample: the scalar `0` is neither a sequence, nor a
mapping, nor none, yet `_check_sql_args` accepts it (the guard
`if sql_args and ...` skips every falsy value), so validation does not
reject every scalar as the claim states. -/
theorem c4_scalar_zero_accepted :
    check_sql_args (.vInt 0) = .ok () ∧ seqMapOrNone (.vInt 0) = false :=
  ⟨rfl, rfl⟩

/-- Claim C4 (amended): validation succeeds exactly when the value is a
list, tuple or dict, or is falsy (none, false, zero, the empty string);
every truthy value of another type is rejected with `TypeError`, before any
connection event for `execute`-style calls and before any queue mutation
for `add_to_queue`. -/
theorem c4_validation_boundary :
    (∀ v : PyVal,
      check_sql_args v = .ok ()
        ↔ (isListTupleDict v = true ∨ pyTruthy v = false))
    ∧ (∀ (b : StmtBehavior) (sql : String) (v : PyVal),
      check_sql_args v = .error .typeError →
      sql_executor b sql v false = ([], .error .typeError))
    ∧ (∀ (qs : Queues) (q sql : String) (v : PyVal) (q0 : Queue),
      qlookup qs q = Option.some q0 →
      check_sql_args v = .error .typeError →
      add_to_queue qs q sql v false = (qs, Option.some .typeError)) := by
  refine ⟨?_, ?_, ?_⟩
  · intro v
    by_cases h1 : isListTupleDict v = true <;>
      by_cases h2 : pyTruthy v = true <;>
        simp [check_sql_args, h1, h2]
  · intro b sql v h
    simp [sql_executor, h]
  · intro qs q sql v q0 hq hv
    simp [add_to_queue, check_queue_exists, hq, addLoop, hv]

/-- Claim C4 witness at concrete inputs: the string `"a string"` is truthy
and not a collection, so it is rejected with no connection event and no
queue change. -/
theorem c4_validation_boundary_witness :
    (check_sql_args (.vStr "a string") = .ok ()
      ↔ (isListTupleDict (.vStr "a string") = true
          ∨ pyTruthy (.vStr "a string") = false))
    ∧ sql_executor ⟨.ok, .progErr⟩ "SELECT 1" (.vStr "a string") false
        = ([], .error .typeError)
    ∧ add_to_queue [("t", [])] "t" "SELECT 1" (.vStr "a string") false
        = ([("t", [])], Option.some .typeError) :=
  ⟨c4_validation_boundary.1 (.vStr "a string"),
   c4_validation_boundary.2.1 ⟨.ok, .progErr⟩ "SELECT 1" (.vStr "a string") rfl,
   c4_validation_boundary.2.2 [("t", [])] "t" "SELECT 1" (.vStr "a string") [] rfl rfl⟩

/-- Claim C5 counterexample: an invalid construction mode raises
`GDConnectionError` - the very class raised when the underlying connection
cannot be opened - not a distinct configuration-error class, refuting the
claimed distinctness (the failure is still immediate, before any
connection attempt). -/
theorem c5_mode_error_is_connection_class :
    handlerInit "not a valid value" true
      = (false, .error (.gdConnectionError "admin takes only on of INIT_ADMIN_OPTS"))
    ∧ connectionErrorClass
        (.gdConnectionError "admin takes only on of INIT_ADMIN_OPTS") = true
    ∧ handlerInit "no_admin" false
      = (true, .error (.gdConnectionError "Cannot connect to database"))
    ∧ connectionErrorClass (.gdConnectionError "Cannot connect to database") = true :=
  ⟨rfl, rfl, rfl, rfl⟩

/-- Claim C5 (amended): a mode outside the three admissible values fails
construction immediately with `GDConnectionError` - the same exception
class used for connection failures, there being no separate configuration
error class - and no connection attempt is made. -/
theorem c5_invalid_mode_fails_before_connect :
    ∀ (admin : String) (connectOk : Bool),
      admin ∉ INIT_ADMIN_OPTS →
      handlerInit admin connectOk
        = (false, .error (.gdConnectionError "admin takes only on of INIT_ADMIN_OPTS")) := by
  intro admin ok h
  simp [handlerInit, h]

/-- Claim C5 witness at a concrete invalid mode. -/
theorem c5_invalid_mode_fails_before_connect_witness :
    handlerInit "not a valid value" false
      = (false, .error (.gdConnectionError "admin takes only on of INIT_ADMIN_OPTS")) :=
  c5_invalid_mode_fails_before_connect "not a valid value" false (by decide)

/-- Claim C6: creating a queue under an existing name fails with the
duplicate-key error and leaves the whole mapping (hence the existing
queue's contents) unchanged; appending to or executing a nonexistent queue
name fails with the not-found error and leaves the mapping unchanged. -/
theorem c6_duplicate_and_missing_queue :
    (∀ (qs : Queues) (q : String) (q0 : Queue),
      qlookup qs q = Option.some q0 →
      create_queue qs q
        = (qs, Option.some (.keyError ("Queue already contains " ++ q))))
    ∧ (∀ (qs : Queues) (q sql : String) (a : PyVal) (m : Bool),
      qlookup qs q = Option.none →
      add_to_queue qs q sql a m
        = (qs, Option.some (.keyError ("Queue " ++ q ++ " does not exists"))))
    ∧ (∀ (drv : Driver) (qs : Queues) (q : String),
      qlookup qs q = Option.none →
      execute_queue drv qs q
        = { queues := qs, events := [],
            ret := .error (.keyError ("Queue " ++ q ++ " does not exists")) }) := by
  refine ⟨?_, ?_, ?_⟩
  · intro qs q q0 h
    simp [create_queue, h]
  · intro qs q sql a m h
    simp [add_to_queue, check_queue_exists, h]
  · intro drv qs q h
    simp [execute_queue, h]

/-- Claim C6 witness at concrete inputs. -/
theorem c6_duplicate_and_missing_queue_witness :
    create_queue [("q", [("S", PyVal.vNone)])] "q"
      = ([("q", [("S", PyVal.vNone)])],
         Option.some (.keyError ("Queue already contains " ++ "q")))
    ∧ add_to_queue [] "missing" "S" .vNone false
      = ([], Option.some (.keyError ("Queue " ++ "missing" ++ " does not exists")))
    ∧ execute_queue (fun _ => ⟨.ok, .progErr⟩) [] "missing"
      = { queues := [], events := [],
          ret := .error (.keyError ("Queue " ++ "missing" ++ " does not exists")) } :=
  ⟨c6_duplicate_and_missing_queue.1 [("q", [("S", PyVal.vNone)])] "q"
     [("S", PyVal.vNone)] rfl,
   c6_duplicate_and_missing_queue.2.1 [] "missing" "S" .vNone false rfl,
   c6_duplicate_and_missing_queue.2.2 (fun _ => ⟨.ok, .progErr⟩) [] "missing" rfl⟩

/-- Claim C8: during queue execution, after a successful execute, the benign
`ProgrammingError` raised by a fetch on a statement with no result set is
swallowed - the loop appends nothing to the Result Buffer and continues
with the next statement - while any other `PostgresError` on fetch, and any
failure of the execute itself, goes through `_rollback_raise_error`:
rollback, queue deletion, `GDExecutionError`.  These outcomes are exhaustive
over the driver model, so the benign condition is the only one swallowed. -/
theorem c8_fetch_no_results_swallowed :
    ∀ (drv : Driver) (idx : Nat) (qs : Queues) (q sql : String)
      (rest : List QueuedStatement) (buf : List PyVal) (evs : List Event),
      ((drv idx).exec = .ok → (drv idx).fetch = .progErr →
        execQueueLoop drv qs q idx ((sql, .vNone) :: rest) buf evs
          = execQueueLoop drv qs q (idx + 1) rest buf (evs ++ [.exec sql .vNone]))
      ∧ (∀ m, (drv idx).exec = .ok → (drv idx).fetch = .pgErr m →
        execQueueLoop drv qs q idx ((sql, .vNone) :: rest) buf evs
          = { queues := qerase qs q,
              events := evs ++ [.exec sql .vNone, .rollback],
              ret := .error (.gdExecutionError (queueErrMsg q sql m)) })
      ∧ (∀ m, (drv idx).exec = .err m →
        execQueueLoop drv qs q idx ((sql, .vNone) :: rest) buf evs
          = { queues := qerase qs q,
              events := evs ++ [.exec sql .vNone, .rollback],
              ret := .error (.gdExecutionError (queueErrMsg q sql m)) }) := by
  intro drv idx qs q sql rest buf evs
  refine ⟨?_, ?_, ?_⟩
  · intro he hf
    rw [execQueueLoop, stepSubst, he, hf]
    rfl
  · intro m he hf
    rw [execQueueLoop, stepSubst, he, hf]
    simp
  · intro m he
    rw [execQueueLoop, stepSubst, he]
    simp

/-- Claim C8 witness: three concrete drivers exercising the swallowed
benign condition, the fetch failure and the execute failure. -/
theorem c8_fetch_no_results_swallowed_witness :
    execQueueLoop (fun _ => ⟨.ok, .progErr⟩) [("q", [])] "q" 0
        [("S", .vNone)] [] []
      = execQueueLoop (fun _ => ⟨.ok, .progErr⟩) [("q", [])] "q" 1 [] []
          ([] ++ [.exec "S" .vNone])
    ∧ execQueueLoop (fun _ => ⟨.ok, .pgErr "boom"⟩) [("q", [])] "q" 0
        [("S", .vNone)] [] []
      = { queues := qerase [("q", [])] "q",
          events := [] ++ [.exec "S" .vNone, .rollback],
          ret := .error (.gdExecutionError (queueErrMsg "q" "S" "boom")) }
    ∧ execQueueLoop (fun _ => ⟨.err "bang", .progErr⟩) [("q", [])] "q" 0
        [("S", .vNone)] [] []
      = { queues := qerase [("q", [])] "q",
          events := [] ++ [.exec "S" .vNone, .rollback],
          ret := .error (.gdExecutionError (queueErrMsg "q" "S" "bang")) } :=
  ⟨(c8_fetch_no_results_swallowed (fun _ => ⟨.ok, .progErr⟩) 0 [("q", [])]
      "q" "S" [] [] []).1 rfl rfl,
   (c8_fetch_no_results_swallowed (fun _ => ⟨.ok, .pgErr "boom"⟩) 0 [("q", [])]
      "q" "S" [] [] []).2.1 "boom" rfl rfl,
   (c8_fetch_no_results_swallowed (fun _ => ⟨.err "bang", .progErr⟩) 0 [("q", [])]
      "q" "S" [] [] []).2.2 "bang" rfl⟩

/-- Claim C9: in a `many=true` append whose k-th argument set is the first
invalid one, the error surfaces only when that set is reached, so exactly
the earlier sets have been appended - in order - and they remain in the
queue after the failed call. -/
theorem c9_failed_batch_leaves_partial_append :
    ∀ (qs : Queues) (q sql : String) (good : List PyVal) (bad : PyVal)
      (rest : List PyVal) (q0 : Queue),
      qlookup qs q = Option.some q0 →
      (∀ a ∈ good, check_sql_args a = .ok ()) →
      check_sql_args bad = .error .typeError →
      add_to_queue qs q sql (.vList (good ++ bad :: rest)) true
        = (qmodify qs q (fun l => l ++ good.map fun a => (sql, a)),
           Option.some .typeError)
      ∧ qlookup (add_to_queue qs q sql (.vList (good ++ bad :: rest)) true).1 q
        = Option.some (q0 ++ good.map fun a => (sql, a)) := by
  intro qs q sql good bad rest q0 hq hgood hbad
  have h1 : add_to_queue qs q sql (.vList (good ++ bad :: rest)) true
      = (qmodify qs q (fun l => l ++ good.map fun a => (sql, a)),
         Option.some .typeError) := by
    simp only [add_to_queue, check_queue_exists, hq, if_true, pyIter]
    exact addLoop_fail q sql bad .typeError hbad good rest qs hgood
  refine ⟨h1, ?_⟩
  rw [h1]
  simp [qlookup_qmodify, hq]

/-- Claim C9 witness: a batch of four argument sets whose third is a truthy
string; the first two are appended and remain, the last is never reached. -/
theorem c9_failed_batch_leaves_partial_append_witness :
    add_to_queue [("q", [("S0", PyVal.vNone)])] "q" "S"
        (.vList [.vTuple [.vInt 1], .vTuple [.vInt 2], .vStr "bad",
                 .vTuple [.vInt 3]]) true
      = (qmodify [("q", [("S0", PyVal.vNone)])] "q"
           (fun l => l ++ [PyVal.vTuple [PyVal.vInt 1],
                           PyVal.vTuple [PyVal.vInt 2]].map fun a => ("S", a)),
         Option.some .typeError)
    ∧ qlookup (add_to_queue [("q", [("S0", PyVal.vNone)])] "q" "S"
        (.vList [.vTuple [.vInt 1], .vTuple [.vInt 2], .vStr "bad",
                 .vTuple [.vInt 3]]) true).1 "q"
      = Option.some ([("S0", PyVal.vNone)]
          ++ [PyVal.vTuple [PyVal.vInt 1],
              PyVal.vTuple [PyVal.vInt 2]].map fun a => ("S", a)) :=
  c9_failed_batch_leaves_partial_append [("q", [("S0", PyVal.vNone)])] "q" "S"
    [.vTuple [.vInt 1], .vTuple [.vInt 2]] (.vStr "bad") [.vTuple [.vInt 3]]
    [("S0", PyVal.vNone)] rfl (by intro a ha; fin_cases ha <;> rfl) rfl

/-- Claim C10: a placeholder token whose braces enclose `-k` with
`1 <= k <= length buf` is not rejected by the scan: it resolves - through
Python negative indexing - to the k-th scalar counting from the end of the
buffer, and sets the consumption flag (`clear_res = True`) like any other
substitution. -/
theorem c10_negative_index_resolves_from_end :
    ∀ (buf : List PyVal) (ds : List Char) (k : Nat) (v : PyVal),
      parseNatDigits ds = Option.some k →
      1 ≤ k → k ≤ buf.length →
      buf[buf.length - k]? = Option.some v →
      substOne buf (.vStr (String.mk ('{' :: '-' :: (ds ++ ['}']))))
        = .ok (v, true) := by
  intro buf ds k v hds hk1 hk2 hv
  have hlast : ('{' :: '-' :: (ds ++ ['}'])).getLast? = Option.some '}' := by
    rw [show '{' :: '-' :: (ds ++ ['}']) = ('{' :: '-' :: ds) ++ ['}'] by simp]
    exact List.getLast?_concat _
  have hinner : pyInnerSlice (String.mk ('{' :: '-' :: (ds ++ ['}'])))
      = String.mk ('-' :: ds) := by
    simp only [pyInnerSlice]
    congr 1
    rw [show '{' :: '-' :: (ds ++ ['}']) = '{' :: (('-' :: ds) ++ ['}']) by simp]
    simp only [List.drop_succ_cons, List.drop_zero, List.dropLast_concat]
  have hint : pyIntOfString (String.mk ('-' :: ds)) = Option.some (-(k : Int)) := by
    simp [pyIntOfString, hds]
  have hidx : pyIndex buf (-(k : Int)) = Option.some v := by
    simp only [pyIndex]
    have hneg : (-(k : Int)) < 0 := by omega
    rw [if_pos hneg, if_pos (by omega : (0 : Int) ≤ -(k : Int) + buf.length
        ∧ -(k : Int) + buf.length < (buf.length : Int))]
    rw [show ((-(k : Int)) + buf.length).toNat = buf.length - k by omega]
    exact hv
  simp only [substOne, List.head?_cons]
  rw [if_pos ⟨trivial, hlast⟩, hinner, hint]
  simp only [hidx]

/-- Claim C10 witness: the token between braces reading minus one resolves
to the last element of a two-element buffer. -/
theorem c10_negative_index_resolves_from_end_witness :
    substOne [PyVal.vInt 10, PyVal.vInt 20]
        (.vStr (String.mk ('{' :: '-' :: (['1'] ++ ['}']))))
      = .ok (PyVal.vInt 20, true) :=
  c10_negative_index_resolves_from_end [PyVal.vInt 10, PyVal.vInt 20] ['1'] 1
    (PyVal.vInt 20) rfl (by decide) (by decide) rfl

/-- For a non-negative index, Python indexing agrees with list lookup. -/
lemma pyIndex_ofNat (buf : List PyVal) (i : Nat) :
    pyIndex buf (i : Int) = buf[i]? := by
  simp only [pyIndex]
  rw [if_neg (by omega : ¬((i : Int) < 0))]
  by_cases hlt : i < buf.length
  · rw [if_pos ⟨by omega, by omega⟩]
    norm_num
  · rw [if_neg (by omega), List.getElem?_eq_none (by omega)]

/-- Scanning a canonical non-negative placeholder token resolves it against
the buffer: in range it substitutes the indexed scalar and sets the
consumption flag, out of range it raises the placeholder error. -/
lemma substOne_natTok (buf : List PyVal) (ds : List Char) (i : Nat)
    (hds : parseNatDigits ds = Option.some i) :
    substOne buf (.vStr (String.mk ('{' :: (ds ++ ['}']))))
      = match buf[i]? with
        | Option.some v => .ok (v, true)
        | Option.none => .error (.gdExecutionError placeholderErrMsg) := by
  have hcond : ds ≠ [] ∧ ds.all (·.isDigit) = true := by
    by_contra hc
    have hnone : parseNatDigits ds = Option.none := by
      rw [parseNatDigits, if_neg (by simpa using hc)]
    rw [hnone] at hds
    exact Option.noConfusion hds
  obtain ⟨c, ds2, rfl⟩ := List.exists_cons_of_ne_nil hcond.1
  have hc : c.isDigit = true := by
    have := hcond.2
    simp [List.all_cons] at this
    exact this.1
  have hcm : c ≠ '-' := by
    intro h
    rw [h] at hc
    exact absurd hc (by decide)
  have hcp : c ≠ '+' := by
    intro h
    rw [h] at hc
    exact absurd hc (by decide)
  have hlast : ('{' :: ((c :: ds2) ++ ['}'])).getLast? = Option.some '}' := by
    rw [show '{' :: ((c :: ds2) ++ ['}']) = ('{' :: c :: ds2) ++ ['}'] by simp]
    exact List.getLast?_concat _
  have hinner : pyInnerSlice (String.mk ('{' :: ((c :: ds2) ++ ['}'])))
      = String.mk (c :: ds2) := by
    simp only [pyInnerSlice]
    congr 1
    simp only [List.drop_succ_cons, List.drop_zero, List.dropLast_concat]
  have hint : pyIntOfString (String.mk (c :: ds2)) = Option.some (i : Int) := by
    simp only [pyIntOfString, List.head?_cons]
    rw [if_neg (fun h => hcm (Option.some.inj h)),
        if_neg (fun h => hcp (Option.some.inj h))]
    simp [hds]
  have hidx := pyIndex_ofNat buf i
  simp only [substOne, List.head?_cons]
  rw [if_pos ⟨trivial, hlast⟩, hinner, hint]
  simp only [hidx]
  rcases buf[i]? with _ | v
  · rfl
  · rfl

/-- At every position, a successful scan rewrites the argument to what
`substOne` produces there, and a consumption at any position implies the
statement-level consumption flag. -/
lemma substArgs_get (buf : List PyVal) :
    ∀ (lst lst' : List PyVal) (cr : Bool) (p : Nat) (a : PyVal),
      substArgs buf lst = .ok (lst', cr) →
      lst[p]? = Option.some a →
      ∃ b c, substOne buf a = .ok (b, c) ∧ lst'[p]? = Option.some b
        ∧ (c = true → cr = true) := by
  intro lst
  induction lst with
  | nil =>
    intro lst' cr p a h hp
    simp at hp
  | cons x rest ih =>
    intro lst' cr p a h hp
    rcases h1 : substOne buf x with e | ⟨x', c1⟩
    · rw [substArgs, h1] at h
      exact absurd h (by simp)
    rcases h2 : substArgs buf rest with e | ⟨rest', c2⟩
    · rw [substArgs, h1, h2] at h
      exact absurd h (by simp)
    rw [substArgs, h1, h2] at h
    simp at h
    obtain ⟨hl, hc⟩ := h
    cases p with
    | zero =>
      simp at hp
      rw [← hp]
      refine ⟨x', c1, h1, ?_, ?_⟩
      · rw [← hl]
        simp
      · intro hcc
        rw [← hc, hcc]
        simp
    | succ p2 =>
      simp at hp
      obtain ⟨b, c, hb1, hb2, hb3⟩ := ih rest' c2 p2 a h2 hp
      refine ⟨b, c, hb1, ?_, ?_⟩
      · rw [← hl]
        simpa using hb2
      · intro hcc
        rw [← hc, hb3 hcc]
        simp

/-- Claim C2: a bound argument that is the token of braces around the
decimal digits of a non-negative integer i is replaced by the i-th scalar
of the current Result Buffer, the statement's consumption flag is set, and
- whenever at least one substitution occurred for a statement - the buffer
is cleared after the whole scan and before the statement's own fetched rows
are appended, so the loop continues on exactly the flattened rows of that
statement. -/
theorem c2_placeholder_resolution_and_reset :
    (∀ (buf lst lst' : List PyVal) (cr : Bool) (p : Nat) (ds : List Char)
       (i : Nat),
      substArgs buf lst = .ok (lst', cr) →
      lst[p]? = Option.some (.vStr (String.mk ('{' :: (ds ++ ['}'])))) →
      parseNatDigits ds = Option.some i →
      cr = true ∧ i < buf.length ∧ lst'[p]? = buf[i]?)
    ∧ (∀ (drv : Driver) (qs : Queues) (q : String) (idx : Nat) (sql : String)
        (a : PyVal) (lst lst' : List PyVal) (rest : Queue) (buf : List PyVal)
        (evs : List Event) (rs : List (List PyVal)),
      pyIter a = .ok lst →
      substArgs buf lst = .ok (lst', true) →
      (drv idx).exec = .ok →
      (drv idx).fetch = .rows rs →
      execQueueLoop drv qs q idx ((sql, a) :: rest) buf evs
        = execQueueLoop drv qs q (idx + 1) rest rs.flatten
            (evs ++ [.exec sql (.vList lst')])) := by
  constructor
  · intro buf lst lst' cr p ds i hsub hp hds
    obtain ⟨b, c, hb1, hb2, hb3⟩ := substArgs_get buf lst lst' cr p _ hsub hp
    rw [substOne_natTok buf ds i hds] at hb1
    rcases hbuf : buf[i]? with _ | v
    · rw [hbuf] at hb1
      exact absurd hb1 (by simp)
    · rw [hbuf] at hb1
      simp at hb1
      obtain ⟨h1b, h2b⟩ := hb1
      have hlt : i < buf.length := by
        by_contra hge
        rw [List.getElem?_eq_none (by omega)] at hbuf
        exact Option.noConfusion hbuf
      refine ⟨hb3 (by simp [h2b]), hlt, ?_⟩
      simp [hb2, hbuf, h1b]
  · intro drv qs q idx sql a lst lst' rest buf evs rs hiter hsub he hf
    have hstep : stepSubst buf a = .ok (.vList lst', true) := by
      cases a with
      | vNone => simp [pyIter] at hiter
      | vBool b => simp [pyIter] at hiter
      | vInt n => simp [pyIter] at hiter
      | vStr s2 =>
        have hl : s2.data.map (fun ch => PyVal.vStr (String.singleton ch)) = lst := by
          simpa [pyIter] using hiter
        simp [stepSubst, pyIter, hl, hsub]
      | vList xs =>
        have hl : xs = lst := by simpa [pyIter] using hiter
        simp [stepSubst, pyIter, hl, hsub]
      | vTuple xs =>
        have hl : xs = lst := by simpa [pyIter] using hiter
        simp [stepSubst, pyIter, hl, hsub]
      | vDict kvs =>
        have hl : kvs.map (·.1) = lst := by simpa [pyIter] using hiter
        simp [stepSubst, pyIter, hl, hsub]
    rw [execQueueLoop, hstep, he, hf]
    simp

/-- Claim C2 witness: a two-element buffer, a statement whose first argument
is the token for index 1; the argument is replaced by the buffer's second
scalar and the loop continues on the new statement's own flattened rows
with the old buffer discarded. -/
theorem c2_placeholder_resolution_and_reset_witness :
    (true = true ∧ 1 < [PyVal.vInt 5, PyVal.vInt 6].length ∧
      [PyVal.vInt 6, PyVal.vInt 0][0]? = [PyVal.vInt 5, PyVal.vInt 6][1]?)
    ∧ execQueueLoop (fun _ => ⟨.ok, .rows [[.vInt 7]]⟩) [("q", [])] "q" 0
        [("S", .vTuple [.vStr (String.mk ('{' :: (['1'] ++ ['}']))),
                        .vInt 0])] [PyVal.vInt 5, PyVal.vInt 6] []
      = execQueueLoop (fun _ => ⟨.ok, .rows [[.vInt 7]]⟩) [("q", [])] "q" 1
          [] [[PyVal.vInt 7]].flatten
          ([] ++ [.exec "S" (.vList [PyVal.vInt 6, PyVal.vInt 0])]) :=
  ⟨c2_placeholder_resolution_and_reset.1 [PyVal.vInt 5, PyVal.vInt 6]
     [.vStr (String.mk ('{' :: (['1'] ++ ['}']))), .vInt 0]
     [PyVal.vInt 6, PyVal.vInt 0] true 0 ['1'] 1 rfl rfl rfl,
   c2_placeholder_resolution_and_reset.2 (fun _ => ⟨.ok, .rows [[.vInt 7]]⟩)
     [("q", [])] "q" 0 "S"
     (.vTuple [.vStr (String.mk ('{' :: (['1'] ++ ['}']))), .vInt 0])
     [.vStr (String.mk ('{' :: (['1'] ++ ['}']))), .vInt 0]
     [PyVal.vInt 6, PyVal.vInt 0] [] [PyVal.vInt 5, PyVal.vInt 6] []
     [[PyVal.vInt 7]] rfl rfl rfl rfl⟩

/-- Claim C3: when a queue run returns normally, the transaction is
committed exactly once (the commit being the final connection event, with
no rollback), the queue entry is deleted from the mapping, and the returned
value is the final Result Buffer as computed by the specification's
recurrence (the empty list when nothing remains unconsumed). -/
theorem c3_success_commits_deletes_returns :
    ∀ (drv : Driver) (qs : Queues) (q : String) (stmts : Queue)
      (out : List PyVal),
      qlookup qs q = Option.some stmts →
      (execute_queue drv qs q).ret = .ok out →
      countCommits (execute_queue drv qs q).events = 1
      ∧ countRollbacks (execute_queue drv qs q).events = 0
      ∧ (execute_queue drv qs q).events.getLast? = Option.some Event.commit
      ∧ (execute_queue drv qs q).queues = qerase qs q
      ∧ qlookup (execute_queue drv qs q).queues q = Option.none
      ∧ out = resultBufferSpec drv 0 stmts [] := by
  intro drv qs q stmts out hq h
  rw [execute_queue, hq] at h ⊢
  obtain ⟨g1, g2, g3, g4, g5, g6⟩ :=
    execQueueLoop_ok_char drv qs q stmts 0 [] [] out h
  refine ⟨?_, ?_, g4, g1, ?_, g6⟩
  · rw [g2]
    rfl
  · rw [g3]
    rfl
  · rw [g1]
    exact qlookup_qerase qs q

/-- Claim C3 witness: a one-statement queue returning one row commits,
deletes the queue and returns the row's scalar. -/
theorem c3_success_commits_deletes_returns_witness :
    countCommits (execute_queue (fun _ => ⟨.ok, .rows [[.vInt 7]]⟩)
        [("q", [("SELECT 7", PyVal.vNone)])] "q").events = 1
    ∧ countRollbacks (execute_queue (fun _ => ⟨.ok, .rows [[.vInt 7]]⟩)
        [("q", [("SELECT 7", PyVal.vNone)])] "q").events = 0
    ∧ (execute_queue (fun _ => ⟨.ok, .rows [[.vInt 7]]⟩)
        [("q", [("SELECT 7", PyVal.vNone)])] "q").events.getLast?
      = Option.some Event.commit
    ∧ (execute_queue (fun _ => ⟨.ok, .rows [[.vInt 7]]⟩)
        [("q", [("SELECT 7", PyVal.vNone)])] "q").queues
      = qerase [("q", [("SELECT 7", PyVal.vNone)])] "q"
    ∧ qlookup (execute_queue (fun _ => ⟨.ok, .rows [[.vInt 7]]⟩)
        [("q", [("SELECT 7", PyVal.vNone)])] "q").queues "q" = Option.none
    ∧ [PyVal.vInt 7] = resultBufferSpec (fun _ => ⟨.ok, .rows [[.vInt 7]]⟩) 0
        [("SELECT 7", PyVal.vNone)] [] :=
  c3_success_commits_deletes_returns (fun _ => ⟨.ok, .rows [[.vInt 7]]⟩)
    [("q", [("SELECT 7", PyVal.vNone)])] "q" [("SELECT 7", PyVal.vNone)]
    [PyVal.vInt 7] rfl rfl

/-- Claim C7: a `many=true` append of N valid argument sets appends exactly
N entries, each pairing the statement text with one argument set, in the
order given and after all earlier entries; and a normally-returning queue
run executes exactly the queued statements in that FIFO order. -/
theorem c7_fifo_append_and_execution :
    (∀ (qs : Queues) (q sql : String) (sets : List PyVal) (q0 : Queue),
      qlookup qs q = Option.some q0 →
      (∀ a ∈ sets, check_sql_args a = .ok ()) →
      add_to_queue qs q sql (.vList sets) true
        = (qmodify qs q (fun l => l ++ sets.map fun a => (sql, a)), Option.none)
      ∧ qlookup (add_to_queue qs q sql (.vList sets) true).1 q
        = Option.some (q0 ++ sets.map fun a => (sql, a)))
    ∧ (∀ (drv : Driver) (qs : Queues) (q : String) (stmts : Queue)
        (out : List PyVal),
      qlookup qs q = Option.some stmts →
      (execute_queue drv qs q).ret = .ok out →
      execSqls (execute_queue drv qs q).events = stmts.map Prod.fst) := by
  constructor
  · intro qs q sql sets q0 hq hall
    have h1 : add_to_queue qs q sql (.vList sets) true
        = (qmodify qs q (fun l => l ++ sets.map fun a => (sql, a)),
           Option.none) := by
      simp only [add_to_queue, check_queue_exists, hq, if_true, pyIter]
      exact addLoop_ok q sql sets qs hall
    refine ⟨h1, ?_⟩
    rw [h1]
    simp [qlookup_qmodify, hq]
  · intro drv qs q stmts out hq h
    rw [execute_queue, hq] at h ⊢
    obtain ⟨-, -, -, -, g5, -⟩ :=
      execQueueLoop_ok_char drv qs q stmts 0 [] [] out h
    rw [g5]
    rfl

/-- Claim C7 witness: three argument sets appended to a queue that already
holds one entry, then a two-statement queue executed in order. -/
theorem c7_fifo_append_and_execution_witness :
    (add_to_queue [("q", [("S0", PyVal.vNone)])] "q" "S"
        (.vList [.vTuple [.vInt 1], .vTuple [.vInt 2], .vTuple [.vInt 3]]) true
      = (qmodify [("q", [("S0", PyVal.vNone)])] "q"
           (fun l => l ++ [PyVal.vTuple [PyVal.vInt 1], PyVal.vTuple [PyVal.vInt 2],
                           PyVal.vTuple [PyVal.vInt 3]].map fun a => ("S", a)),
         Option.none)
      ∧ qlookup (add_to_queue [("q", [("S0", PyVal.vNone)])] "q" "S"
          (.vList [.vTuple [.vInt 1], .vTuple [.vInt 2], .vTuple [.vInt 3]]) true).1 "q"
        = Option.some ([("S0", PyVal.vNone)]
            ++ [PyVal.vTuple [PyVal.vInt 1], PyVal.vTuple [PyVal.vInt 2],
                PyVal.vTuple [PyVal.vInt 3]].map fun a => ("S", a)))
    ∧ execSqls (execute_queue (fun _ => ⟨.ok, .progErr⟩)
        [("q", [("A", PyVal.vNone), ("B", PyVal.vNone)])] "q").events
      = [("A", PyVal.vNone), ("B", PyVal.vNone)].map Prod.fst :=
  ⟨c7_fifo_append_and_execution.1 [("q", [("S0", PyVal.vNone)])] "q" "S"
     [.vTuple [.vInt 1], .vTuple [.vInt 2], .vTuple [.vInt 3]]
     [("S0", PyVal.vNone)] rfl (by intro a ha; fin_cases ha <;> rfl),
   c7_fifo_append_and_execution.2 (fun _ => ⟨.ok, .progErr⟩)
     [("q", [("A", PyVal.vNone), ("B", PyVal.vNone)])] "q"
     [("A", PyVal.vNone), ("B", PyVal.vNone)] [] rfl rfl⟩

/-- Concrete driver for the out-of-range-placeholder run: every execute
succeeds and every fetch raises the benign no-result condition. -/
def c1drv : Driver := fun _ => ⟨.ok, .progErr⟩

/-- Concrete queue for the out-of-range-placeholder run: an insert with no
arguments followed by an update whose bound argument is the placeholder for
index 0 while the Result Buffer is empty. -/
def c1queue : Queue :=
  [("INSERT INTO test_table (int_column) VALUES (2)", PyVal.vNone),
   ("UPDATE test_table SET bool_column = FALSE WHERE str_column = %s",
    PyVal.vTuple [PyVal.vStr (String.mk ['{', '0', '}'])])]

/-- Queue mapping holding the single queue above. -/
def c1qs : Queues := [("test_queue", c1queue)]

/-- Claim C1, evaluated at the failing input: an out-of-range placeholder
makes `execute_queue` raise `GDExecutionError` as claimed, but - because
line 478 raises directly instead of going through `_rollback_raise_error` -
no rollback is issued (the first statement's execute is left uncommitted
and un-rolled-back in the open transaction) and the queue entry is NOT
deleted from the mapping, contradicting the claimed rollback and
deletion. -/
theorem c1_placeholder_failure_skips_rollback_and_delete :
    (execute_queue c1drv c1qs "test_queue").ret
      = .error (.gdExecutionError placeholderErrMsg)
    ∧ (execute_queue c1drv c1qs "test_queue").events
      = [.exec "INSERT INTO test_table (int_column) VALUES (2)" PyVal.vNone]
    ∧ countRollbacks (execute_queue c1drv c1qs "test_queue").events = 0
    ∧ (execute_queue c1drv c1qs "test_queue").queues = c1qs
    ∧ qlookup (execute_queue c1drv c1qs "test_queue").queues "test_queue"
      = Option.some c1queue :=
  ⟨rfl, rfl, rfl, rfl, rfl⟩

end GDSpec
